import Mathlib

/-!
WiFi driver core: connection state machine, frame pipeline, statistics

A shallow embedding of `src/core/wifi_core.c`, `src/mac/mac_core.c`,
`src/security/wpa_handler.c` and `src/cfg80211/cfg_ops.c`.

Conventions of the embedding

* C structures become Lean structures with the same field names.
* `void *mac_ctx` / `void *sec_ctx` are `Option`s: `none` is the null pointer.
* Functions returning `int` return an `Int` together with the new `World`;
  `void` functions return the new `World`.
* Every call that leaves the core (notifier, link transport, security, skb
  release, network stack) is appended to `World.trace` in program order.
* Every assignment `dev->state = X` goes through `set_state`, which writes the
  field and appends the pair (old value, new value) to `World.state_log`.
* `u32` / `u64` counters wrap modulo `2^32` / `2^64`.
* Allocation results, `jiffies` and `get_random_bytes` are inputs of the
  operations that consume them.
-/

namespace WifiCore

/-! ## include/wifi_types.h -/

/-- The six connection states of `enum wifi_state`. -/
inductive wifi_state where
  | DISCONNECTED
  | SCANNING
  | AUTHENTICATING
  | ASSOCIATING
  | CONNECTED
  | ROAMING
  deriving DecidableEq, Repr

/-- The security types of `enum wifi_security`. -/
inductive wifi_security where
  | OPEN
  | WEP
  | WPA2
  | WPA3
  deriving DecidableEq, Repr

/-- A discovered access point, `struct wifi_bss_info`. -/
structure wifi_bss_info where
  bssid : List Nat
  ssid : List Nat
  ssid_len : Nat
  rssi : Int
  channel : Nat
  security : wifi_security
  deriving DecidableEq, Repr

/-- Device tunables, `struct wifi_config`. -/
structure wifi_config where
  tx_power_dbm : Nat
  rts_threshold : Nat
  frag_threshold : Nat
  qos_enabled : Bool
  deriving DecidableEq, Repr

/-! ## Kernel objects the core handles -/

/-- The part of `struct sk_buff` the driver reads or writes. -/
structure sk_buff where
  len : Nat
  data : List Nat
  dev : Option Nat
  protocol : Nat
  deriving DecidableEq, Repr

/-! ## errno values -/

def ENOMEM : Int := 12
def EBUSY : Int := 16
def EINVAL : Int := 22
def ENOTCONN : Int := 107
def ENOKEY : Int := 126
def ENOTSUPP : Int := 524

/-! ## src/mac/mac_core.c and src/security/wpa_handler.c : contexts -/

/-- Link-transport context, `struct mac_context`. -/
structure mac_context where
  bssid : List Nat
  assoc_id : Nat
  qos_enabled : Bool
  tx_power : Nat
  power_save : Bool
  deriving DecidableEq, Repr

/-- Security context, `struct wpa_context`. -/
structure wpa_context where
  security_type : wifi_security
  pmk : List Nat
  ptk : List Nat
  gtk : List Nat
  keys_installed : Bool
  deriving DecidableEq, Repr

/-! ## src/core/wifi_core.c : data -/

/-- A queued TX job, `struct tx_work`; the `dev` back-reference is the device
of the world the job is queued in. -/
structure tx_work where
  skb : sk_buff
  deriving DecidableEq, Repr

/-- An entry of the BSS list, `struct wifi_bss_entry`. -/
structure wifi_bss_entry where
  info : wifi_bss_info
  last_seen : Nat
  deriving DecidableEq, Repr

/-- The device, `struct wifi_device`. -/
structure wifi_device where
  netdev : Nat
  state : wifi_state
  config : wifi_config
  tx_wq : List tx_work
  rx_wq : List sk_buff
  bss_list : List wifi_bss_entry
  mac_ctx : Option mac_context
  sec_ctx : Option wpa_context
  deriving DecidableEq, Repr

/-- Cumulative counters, `struct wifi_stats`. -/
structure wifi_stats where
  tx_packets : Nat
  rx_packets : Nat
  tx_bytes : Nat
  rx_bytes : Nat
  tx_errors : Nat
  rx_errors : Nat
  tx_dropped : Nat
  rx_dropped : Nat
  deriving DecidableEq, Repr

/-- One call leaving the core, in the order the program makes it. -/
inductive Effect where
  | cfg80211_notify_scan_started (netdev : Nat)
  | cfg80211_notify_scan_done (netdev : Nat)
  | cfg80211_notify_disconnected (netdev : Nat)
  | cfg80211_report_association (bssid : List Nat)
  | cfg80211_report_disassociation
  | mac_associate (bss : Option wifi_bss_info)
  | mac_disassociate
  | mac_tx_submit (skb : sk_buff)
  | mac_set_qos_tag (skb : sk_buff)
  | mac_set_power_save (enable : Bool)
  | mac_set_tx_power (dbm : Nat)
  | wpa_start_auth (bss : Option wifi_bss_info)
  | wpa_encrypt_skb (skb : sk_buff) (ret : Int)
  | wpa_decrypt_skb (skb : sk_buff) (ret : Int)
  | wpa_reset
  | dev_kfree_skb (skb : sk_buff)
  | netif_rx (skb : sk_buff)
  deriving DecidableEq, Repr

/-- The device together with the global `g_stats` and the two logs. -/
structure World where
  dev : wifi_device
  g_stats : wifi_stats
  trace : List Effect
  state_log : List (wifi_state × wifi_state)
  deriving DecidableEq, Repr

/-- Append one outgoing call to the trace. -/
def emit (w : World) (e : Effect) : World :=
  { w with trace := w.trace ++ [e] }

/-- The assignment `dev->state = s`. -/
def set_state (w : World) (s : wifi_state) : World :=
  { w with dev := { w.dev with state := s },
           state_log := w.state_log ++ [(w.dev.state, s)] }

/-! ## src/cfg80211/cfg_ops.c -/

def cfg80211_notify_scan_started (w : World) (netdev : Nat) : World :=
  emit w (Effect.cfg80211_notify_scan_started netdev)

def cfg80211_notify_scan_done (w : World) (netdev : Nat) : World :=
  emit w (Effect.cfg80211_notify_scan_done netdev)

def cfg80211_notify_disconnected (w : World) (netdev : Nat) : World :=
  emit w (Effect.cfg80211_notify_disconnected netdev)

def cfg80211_report_association (w : World) (bssid : List Nat) : World :=
  emit w (Effect.cfg80211_report_association bssid)

def cfg80211_report_disassociation (w : World) : World :=
  emit w Effect.cfg80211_report_disassociation

/-- The kernel helper `dev_kfree_skb`. -/
def dev_kfree_skb (w : World) (skb : sk_buff) : World :=
  emit w (Effect.dev_kfree_skb skb)

/-! ## src/mac/mac_core.c -/

/-- The function `mac_associate(dev->mac_ctx, bss)`. -/
def mac_associate (w : World) (bss : Option wifi_bss_info) : Int × World :=
  let w := emit w (Effect.mac_associate bss)
  match w.dev.mac_ctx, bss with
  | some ctx, some b =>
    let w := { w with dev := { w.dev with mac_ctx := some { ctx with bssid := b.bssid } } }
    let w := cfg80211_report_association w b.bssid
    (0, w)
  | _, _ => (-EINVAL, w)

/-- The function `mac_disassociate(dev->mac_ctx)`. -/
def mac_disassociate (w : World) : Int × World :=
  let w := emit w Effect.mac_disassociate
  match w.dev.mac_ctx with
  | none => (-EINVAL, w)
  | some ctx =>
    let w := { w with dev := { w.dev with mac_ctx := some { ctx with bssid := List.replicate 6 0 } } }
    let w := cfg80211_report_disassociation w
    (0, w)

/-- The function `mac_tx_submit(dev->mac_ctx, skb)`. -/
def mac_tx_submit (w : World) (skb : sk_buff) : Int × World :=
  let w := emit w (Effect.mac_tx_submit skb)
  let w := dev_kfree_skb w skb
  (0, w)

/-- The function `mac_set_qos_tag(dev->mac_ctx, skb)`: its body is empty. -/
def mac_set_qos_tag (w : World) (skb : sk_buff) : World :=
  emit w (Effect.mac_set_qos_tag skb)

/-- The function `mac_set_power_save(dev->mac_ctx, enable)`. -/
def mac_set_power_save (w : World) (enable : Bool) : Int × World :=
  let w := emit w (Effect.mac_set_power_save enable)
  match w.dev.mac_ctx with
  | none => (-EINVAL, w)
  | some ctx =>
    (0, { w with dev := { w.dev with mac_ctx := some { ctx with power_save := enable } } })

/-- The function `mac_set_tx_power(dev->mac_ctx, dbm)`. -/
def mac_set_tx_power (w : World) (dbm : Nat) : Int × World :=
  let w := emit w (Effect.mac_set_tx_power dbm)
  match w.dev.mac_ctx with
  | none => (-EINVAL, w)
  | some ctx =>
    (0, { w with dev := { w.dev with mac_ctx := some { ctx with tx_power := dbm } } })

/-! ## src/security/wpa_handler.c -/

/-- The function `wpa_start_auth(dev->sec_ctx, bss)`; `rnd i` is what the
`i`-th `get_random_bytes` call of this invocation delivers. -/
def wpa_start_auth (w : World) (bss : Option wifi_bss_info) (rnd : Nat → List Nat) :
    Int × World :=
  let w := emit w (Effect.wpa_start_auth bss)
  match w.dev.sec_ctx, bss with
  | some ctx, some b =>
    let ctx := { ctx with security_type := b.security }
    match b.security with
    | wifi_security.OPEN =>
      (0, { w with dev := { w.dev with sec_ctx := some { ctx with keys_installed := true } } })
    | wifi_security.WPA2 =>
      (0, { w with dev := { w.dev with
              sec_ctx := some { ctx with ptk := rnd 0, keys_installed := true } } })
    | wifi_security.WPA3 =>
      (0, { w with dev := { w.dev with
              sec_ctx := some { ctx with pmk := rnd 0, ptk := rnd 1, keys_installed := true } } })
    | wifi_security.WEP =>
      (-ENOTSUPP, { w with dev := { w.dev with sec_ctx := some ctx } })
  | _, _ => (-EINVAL, w)

/-- The value `wpa_encrypt_skb(sec_ctx, skb)` returns. -/
def wpa_encrypt_ret (sec_ctx : Option wpa_context) : Int :=
  match sec_ctx with
  | none => -ENOKEY
  | some ctx =>
    if !ctx.keys_installed then -ENOKEY
    else if ctx.security_type = wifi_security.OPEN then 0
    else 0

/-- The function `wpa_encrypt_skb(dev->sec_ctx, skb)`. -/
def wpa_encrypt_skb (w : World) (skb : sk_buff) : Int × World :=
  let ret := wpa_encrypt_ret w.dev.sec_ctx
  (ret, emit w (Effect.wpa_encrypt_skb skb ret))

/-- The value `wpa_decrypt_skb(sec_ctx, skb)` returns. -/
def wpa_decrypt_ret (sec_ctx : Option wpa_context) : Int :=
  match sec_ctx with
  | none => -ENOKEY
  | some ctx =>
    if !ctx.keys_installed then -ENOKEY
    else if ctx.security_type = wifi_security.OPEN then 0
    else 0

/-- The function `wpa_decrypt_skb(dev->sec_ctx, skb)`. -/
def wpa_decrypt_skb (w : World) (skb : sk_buff) : Int × World :=
  let ret := wpa_decrypt_ret w.dev.sec_ctx
  (ret, emit w (Effect.wpa_decrypt_skb skb ret))

/-- The function `wpa_reset(dev->sec_ctx)`. -/
def wpa_reset (w : World) : World :=
  let w := emit w Effect.wpa_reset
  match w.dev.sec_ctx with
  | none => w
  | some ctx =>
    { w with dev := { w.dev with
        sec_ctx := some { ctx with
          ptk := List.replicate 64 0, pmk := List.replicate 32 0,
          gtk := List.replicate 32 0, keys_installed := false } } }

/-! ## src/core/wifi_core.c : device lifecycle -/

/-- The zero-filled device `kzalloc` returns, after `INIT_LIST_HEAD` and with
the state set to `WIFI_STATE_DISCONNECTED`. -/
def zero_device : wifi_device :=
  { netdev := 0,
    state := wifi_state.DISCONNECTED,
    config := { tx_power_dbm := 0, rts_threshold := 0, frag_threshold := 0,
                qos_enabled := false },
    tx_wq := [], rx_wq := [], bss_list := [],
    mac_ctx := none, sec_ctx := none }

/-- The static `g_stats` at module load. -/
def zero_stats : wifi_stats :=
  { tx_packets := 0, rx_packets := 0, tx_bytes := 0, rx_bytes := 0,
    tx_errors := 0, rx_errors := 0, tx_dropped := 0, rx_dropped := 0 }

/-- The function `wifi_core_init`: `dev_ok` is the result of `kzalloc`,
`tx_wq_ok` and `rx_wq_ok` those of `create_singlethread_workqueue`. -/
def wifi_core_init (dev_ok tx_wq_ok rx_wq_ok : Bool) : Int × Option wifi_device :=
  if !dev_ok then (-ENOMEM, none)
  else
    let dev := { zero_device with state := wifi_state.DISCONNECTED }
    if !tx_wq_ok || !rx_wq_ok then (-ENOMEM, none)
    else (0, some dev)

/-- The world right after a successful `wifi_core_init` at module load. -/
def init_world : World :=
  { dev := zero_device, g_stats := zero_stats, trace := [], state_log := [] }

/-! ## TX path -/

/-- The function `wifi_tx_worker`, run on the job `tw` of the device of `w`. -/
def wifi_tx_worker (w : World) (tw : tx_work) : World :=
  let skb := tw.skb
  if skb.len > w.dev.config.frag_threshold then
    dev_kfree_skb w skb
  else
    let w := if w.dev.config.qos_enabled then mac_set_qos_tag w skb else w
    let w := (wpa_encrypt_skb w skb).2
    let w := (mac_tx_submit w skb).2
    w

/-- The function `wifi_core_tx`; `alloc_ok` is the result of `kmalloc`. -/
def wifi_core_tx (w : World) (skb : sk_buff) (alloc_ok : Bool) : Int × World :=
  if w.dev.state ≠ wifi_state.CONNECTED then
    (-ENOTCONN, dev_kfree_skb w skb)
  else if !alloc_ok then
    (-ENOMEM, dev_kfree_skb w skb)
  else
    (0, { w with dev := { w.dev with tx_wq := w.dev.tx_wq ++ [{ skb := skb }] } })

/-- The single-threaded TX workqueue runs its oldest job, if there is one. -/
def run_tx_wq (w : World) : World :=
  match w.dev.tx_wq with
  | [] => w
  | tw :: rest => wifi_tx_worker { w with dev := { w.dev with tx_wq := rest } } tw

/-! ## RX path -/

/-- The function `wifi_core_rx`; `proto` is what `eth_type_trans` returns. -/
def wifi_core_rx (w : World) (skb : sk_buff) (proto : Nat) : World :=
  let r := wpa_decrypt_skb w skb
  if r.1 < 0 then
    dev_kfree_skb r.2 skb
  else
    let skb := { skb with dev := some w.dev.netdev }
    let skb := { skb with protocol := proto }
    emit r.2 (Effect.netif_rx skb)

/-! ## Scanning -/

/-- The function `wifi_core_scan_start`. -/
def wifi_core_scan_start (w : World) : Int × World :=
  if w.dev.state ≠ wifi_state.DISCONNECTED then
    (-EBUSY, w)
  else
    let w := set_state w wifi_state.SCANNING
    let w := cfg80211_notify_scan_started w w.dev.netdev
    (0, w)

/-- The function `wifi_core_scan_result`; `alloc_ok` is the result of
`kzalloc`, `jiffies` the tick counter read. `list_add_rcu` inserts at the head. -/
def wifi_core_scan_result (w : World) (bss : wifi_bss_info) (alloc_ok : Bool)
    (jiffies : Nat) : World :=
  if !alloc_ok then w
  else
    let entry : wifi_bss_entry := { info := bss, last_seen := jiffies }
    { w with dev := { w.dev with bss_list := entry :: w.dev.bss_list } }

/-- The function `wifi_core_scan_done`. -/
def wifi_core_scan_done (w : World) : World :=
  let w := set_state w wifi_state.DISCONNECTED
  cfg80211_notify_scan_done w w.dev.netdev

/-! ## Connection management -/

/-- The function `wifi_core_connect`. -/
def wifi_core_connect (w : World) (target : Option wifi_bss_info) (rnd : Nat → List Nat) :
    Int × World :=
  let w := set_state w wifi_state.AUTHENTICATING
  let r := wpa_start_auth w target rnd
  if r.1 ≠ 0 then
    (r.1, set_state r.2 wifi_state.DISCONNECTED)
  else
    let w := set_state r.2 wifi_state.ASSOCIATING
    let r := mac_associate w target
    if r.1 ≠ 0 then
      (r.1, set_state r.2 wifi_state.DISCONNECTED)
    else
      (0, set_state r.2 wifi_state.CONNECTED)

/-- The function `wifi_core_disconnect`. -/
def wifi_core_disconnect (w : World) : World :=
  let w := (mac_disassociate w).2
  let w := wpa_reset w
  let w := set_state w wifi_state.DISCONNECTED
  cfg80211_notify_disconnected w w.dev.netdev

/-! ## Power management -/

/-- The function `wifi_core_suspend`. -/
def wifi_core_suspend (w : World) : Int × World :=
  (0, (mac_set_power_save w true).2)

/-- The function `wifi_core_resume`. -/
def wifi_core_resume (w : World) : Int × World :=
  (0, (mac_set_power_save w false).2)

/-! ## Statistics -/

/-- The function `wifi_core_update_tx_stats` on `g_stats`. -/
def wifi_core_update_tx_stats (g : wifi_stats) (bytes : Nat) (success : Bool) : wifi_stats :=
  if success then
    { g with tx_packets := (g.tx_packets + 1) % 2 ^ 64,
             tx_bytes := (g.tx_bytes + bytes) % 2 ^ 64 }
  else
    { g with tx_errors := (g.tx_errors + 1) % 2 ^ 32,
             tx_dropped := (g.tx_dropped + 1) % 2 ^ 32 }

/-- The function `wifi_core_update_rx_stats` on `g_stats`. -/
def wifi_core_update_rx_stats (g : wifi_stats) (bytes : Nat) (success : Bool) : wifi_stats :=
  if success then
    { g with rx_packets := (g.rx_packets + 1) % 2 ^ 64,
             rx_bytes := (g.rx_bytes + bytes) % 2 ^ 64 }
  else
    { g with rx_errors := (g.rx_errors + 1) % 2 ^ 32,
             rx_dropped := (g.rx_dropped + 1) % 2 ^ 32 }

/-- The function `wifi_core_get_stats`: the copy written to `out`, and the
untouched `g_stats`. -/
def wifi_core_get_stats (g : wifi_stats) : wifi_stats × wifi_stats :=
  (g, g)

/-! ## Config management -/

/-- The function `wifi_core_set_tx_power`. -/
def wifi_core_set_tx_power (w : World) (dbm : Nat) : Int × World :=
  if dbm > 30 then (-EINVAL, w)
  else
    let w := { w with dev := { w.dev with config := { w.dev.config with tx_power_dbm := dbm } } }
    mac_set_tx_power w dbm

/-- The function `wifi_core_set_rts_threshold`. -/
def wifi_core_set_rts_threshold (w : World) (thresh : Nat) : Int × World :=
  (0, { w with dev := { w.dev with config := { w.dev.config with rts_threshold := thresh } } })

/-! ## Roaming -/

/-- The constant `ROAM_RSSI_THRESHOLD`, in dBm. -/
def ROAM_RSSI_THRESHOLD : Int := -75

/-- The function `wifi_core_check_roaming`. -/
def wifi_core_check_roaming (w : World) (current_rssi : Int) : World :=
  if w.dev.state ≠ wifi_state.CONNECTED then w
  else if current_rssi < ROAM_RSSI_THRESHOLD then
    let w := set_state w wifi_state.ROAMING
    (wifi_core_scan_start w).2
  else w

/-! ## Event sequences -/

/-- The core events a caller context can raise, with the inputs each consumes. -/
inductive CoreEvent where
  | start_scan
  | scan_result (bss : wifi_bss_info) (alloc_ok : Bool) (jiffies : Nat)
  | scan_done
  | connect (target : Option wifi_bss_info) (rnd : Nat → List Nat)
  | disconnect
  | rssi_sample (current_rssi : Int)
  | suspend
  | resume

/-- Apply one core event (return values are dropped). -/
def apply_event (w : World) : CoreEvent → World
  | CoreEvent.start_scan => (wifi_core_scan_start w).2
  | CoreEvent.scan_result bss alloc_ok jiffies => wifi_core_scan_result w bss alloc_ok jiffies
  | CoreEvent.scan_done => wifi_core_scan_done w
  | CoreEvent.connect target rnd => (wifi_core_connect w target rnd).2
  | CoreEvent.disconnect => wifi_core_disconnect w
  | CoreEvent.rssi_sample r => wifi_core_check_roaming w r
  | CoreEvent.suspend => (wifi_core_suspend w).2
  | CoreEvent.resume => (wifi_core_resume w).2

/-- Apply a sequence of core events, oldest first. -/
def run_events (w : World) (evs : List CoreEvent) : World :=
  evs.foldl apply_event w

/-- The number of `scan_started` notifications in a trace. -/
def count_scan_started (t : List Effect) : Nat :=
  (t.filter (fun e => match e with
    | Effect.cfg80211_notify_scan_started _ => true
    | _ => false)).length

/-- The frames handed to `mac_tx_submit` in a trace. -/
def submitted (t : List Effect) : List sk_buff :=
  t.filterMap (fun e => match e with
    | Effect.mac_tx_submit skb => some skb
    | _ => none)

/-! ## The transition table of the specification (section 4.2) -/

/-- The event column of the table. -/
inductive TableEvent where
  | start_scan
  | scan_result
  | scan_done
  | connect
  | auth_ok
  | auth_fail
  | assoc_ok
  | assoc_fail
  | disconnect
  | rssi_below_threshold
  | suspend
  | resume
  deriving DecidableEq, Repr

/-- The rows of the table of section 4.2, written from the specification:
`spec_table_edge a ev b` holds when the table has a row from `a` to `b` on `ev`. -/
def spec_table_edge : wifi_state → TableEvent → wifi_state → Bool
  | wifi_state.DISCONNECTED, TableEvent.start_scan, wifi_state.SCANNING => true
  | wifi_state.SCANNING, TableEvent.scan_result, wifi_state.SCANNING => true
  | wifi_state.SCANNING, TableEvent.scan_done, wifi_state.DISCONNECTED => true
  | wifi_state.DISCONNECTED, TableEvent.connect, wifi_state.AUTHENTICATING => true
  | wifi_state.AUTHENTICATING, TableEvent.auth_ok, wifi_state.ASSOCIATING => true
  | wifi_state.AUTHENTICATING, TableEvent.auth_fail, wifi_state.DISCONNECTED => true
  | wifi_state.ASSOCIATING, TableEvent.assoc_ok, wifi_state.CONNECTED => true
  | wifi_state.ASSOCIATING, TableEvent.assoc_fail, wifi_state.DISCONNECTED => true
  | wifi_state.CONNECTED, TableEvent.disconnect, wifi_state.DISCONNECTED => true
  | wifi_state.CONNECTED, TableEvent.rssi_below_threshold, wifi_state.ROAMING => true
  | a, TableEvent.suspend, b => decide (a = b)
  | a, TableEvent.resume, b => decide (a = b)
  | _, _, _ => false

/-! ## Firmware management -/

/-- The function `wifi_core_fw_load`: it only logs and returns 0. -/
def wifi_core_fw_load (w : World) : Int × World :=
  (0, w)

/-! ## Observations on traces -/

/-- The frames handed to the network stack (`netif_rx`) in a trace. -/
def delivered (t : List Effect) : List sk_buff :=
  t.filterMap (fun e => match e with
    | Effect.netif_rx skb => some skb
    | _ => none)

/-- The number of `disconnected` notifications in a trace. -/
def count_disconnected (t : List Effect) : Nat :=
  (t.filter (fun e => match e with
    | Effect.cfg80211_notify_disconnected _ => true
    | _ => false)).length

/-! ## Sequences of operations -/

/-- The entry `wifi_core_scan_result` builds for a record and a tick count. -/
def bss_entry_of (r : wifi_bss_info × Nat) : wifi_bss_entry :=
  { info := r.1, last_seen := r.2 }

/-- A run of `wifi_core_scan_result` calls with allocation succeeding, in the
order in which their list insertions take the `bss_lock`; each item is the
record and the `jiffies` value its call read. -/
def record_all (w : World) (order : List (wifi_bss_info × Nat)) : World :=
  order.foldl (fun v r => wifi_core_scan_result v r.1 true r.2) w

/-- One call of a statistics update function. -/
inductive StatUpdate where
  | tx (bytes : Nat) (success : Bool)
  | rx (bytes : Nat) (success : Bool)
  deriving DecidableEq, Repr

/-- Apply one statistics update to `g_stats`. -/
def apply_update (g : wifi_stats) : StatUpdate → wifi_stats
  | StatUpdate.tx bytes success => wifi_core_update_tx_stats g bytes success
  | StatUpdate.rx bytes success => wifi_core_update_rx_stats g bytes success

/-- Apply a sequence of statistics updates, oldest first. -/
def apply_updates (g : wifi_stats) (l : List StatUpdate) : wifi_stats :=
  l.foldl apply_update g

/-- The number of TX updates in `l` with the given outcome. -/
def tx_count (success : Bool) (l : List StatUpdate) : Nat :=
  (l.filter (fun u => match u with
    | StatUpdate.tx _ s => s == success
    | StatUpdate.rx _ _ => false)).length

/-- The number of RX updates in `l` with the given outcome. -/
def rx_count (success : Bool) (l : List StatUpdate) : Nat :=
  (l.filter (fun u => match u with
    | StatUpdate.rx _ s => s == success
    | StatUpdate.tx _ _ => false)).length

/-- The byte counts of the successful TX updates in `l`, added up. -/
def tx_byte_sum (l : List StatUpdate) : Nat :=
  (l.map (fun u => match u with
    | StatUpdate.tx b true => b
    | _ => 0)).sum

/-- The byte counts of the successful RX updates in `l`, added up. -/
def rx_byte_sum (l : List StatUpdate) : Nat :=
  (l.map (fun u => match u with
    | StatUpdate.rx b true => b
    | _ => 0)).sum

/-- The operations of `wifi_core.c` on a live device, with the inputs each
consumes. `wifi_core_deinit` and `wifi_core_fw_reset` free the device and are
not operations on it. -/
inductive CoreOp where
  | event (e : CoreEvent)
  | tx (skb : sk_buff) (alloc_ok : Bool)
  | tx_wq_run
  | rx (skb : sk_buff) (proto : Nat)
  | set_tx_power (dbm : Nat)
  | set_rts_threshold (thresh : Nat)
  | update_tx_stats (bytes : Nat) (success : Bool)
  | update_rx_stats (bytes : Nat) (success : Bool)
  | get_stats
  | fw_load

/-- Apply one operation (return values are dropped). -/
def apply_op (w : World) : CoreOp → World
  | CoreOp.event e => apply_event w e
  | CoreOp.tx skb alloc_ok => (wifi_core_tx w skb alloc_ok).2
  | CoreOp.tx_wq_run => run_tx_wq w
  | CoreOp.rx skb proto => wifi_core_rx w skb proto
  | CoreOp.set_tx_power dbm => (wifi_core_set_tx_power w dbm).2
  | CoreOp.set_rts_threshold thresh => (wifi_core_set_rts_threshold w thresh).2
  | CoreOp.update_tx_stats bytes success =>
    { w with g_stats := wifi_core_update_tx_stats w.g_stats bytes success }
  | CoreOp.update_rx_stats bytes success =>
    { w with g_stats := wifi_core_update_rx_stats w.g_stats bytes success }
  | CoreOp.get_stats => { w with g_stats := (wifi_core_get_stats w.g_stats).2 }
  | CoreOp.fw_load => (wifi_core_fw_load w).2

/-- Apply a sequence of operations, oldest first. -/
def run_ops (w : World) (ops : List CoreOp) : World :=
  ops.foldl apply_op w

/-- What holds of every world reached from initialisation: both collaborator
contexts are null, the state is Disconnected or Scanning, the TX queue is empty
and no state write has ever stored Connected or Roaming. -/
def init_inv (w : World) : Prop :=
  w.dev.sec_ctx = none ∧ w.dev.mac_ctx = none
  ∧ (w.dev.state = wifi_state.DISCONNECTED ∨ w.dev.state = wifi_state.SCANNING)
  ∧ w.dev.tx_wq = []
  ∧ ∀ p ∈ w.state_log, p.2 ≠ wifi_state.CONNECTED ∧ p.2 ≠ wifi_state.ROAMING

/-! ## Concrete inputs used by the evaluations below -/

/-- An open access point on channel 6. -/
def open_ap : wifi_bss_info :=
  { bssid := [2, 0, 0, 0, 0, 1], ssid := [104, 111, 109, 101], ssid_len := 4,
    rssi := -50, channel := 6, security := wifi_security.OPEN }

/-- The same access point advertising WEP. -/
def wep_ap : wifi_bss_info :=
  { open_ap with security := wifi_security.WEP }

/-- A link-transport context associated with `open_ap`. -/
def sample_mac_ctx : mac_context :=
  { bssid := [2, 0, 0, 0, 0, 1], assoc_id := 1, qos_enabled := false, tx_power := 20,
    power_save := false }

/-- A security context of an open network with its keys marked installed. -/
def sample_sec_ctx : wpa_context :=
  { security_type := wifi_security.OPEN, pmk := [], ptk := [], gtk := [],
    keys_installed := true }

/-- A device in state Connected with both collaborator contexts attached and a
fragmentation threshold of 1500 bytes. -/
def connected_world : World :=
  { dev := { netdev := 7,
             state := wifi_state.CONNECTED,
             config := { tx_power_dbm := 20, rts_threshold := 2347, frag_threshold := 1500,
                         qos_enabled := false },
             tx_wq := [], rx_wq := [], bss_list := [],
             mac_ctx := some sample_mac_ctx, sec_ctx := some sample_sec_ctx },
    g_stats := zero_stats, trace := [], state_log := [] }

/-- The device of `connected_world` in the middle of a scan. -/
def scanning_world : World :=
  { connected_world with dev := { connected_world.dev with state := wifi_state.SCANNING } }

/-- The device of `connected_world` before any connection. -/
def disconnected_world : World :=
  { connected_world with dev := { connected_world.dev with state := wifi_state.DISCONNECTED } }

/-- The device of `connected_world` with a security context whose keys are not
installed. -/
def nokey_world : World :=
  { connected_world with
      dev := { connected_world.dev with
        sec_ctx := some { sample_sec_ctx with keys_installed := false } } }

/-- The device of `connected_world` with no link-transport context. -/
def nomac_world : World :=
  { connected_world with dev := { connected_world.dev with mac_ctx := none } }

/-- A WPA2 access point sharing the BSSID of `open_ap`. -/
def wpa2_ap : wifi_bss_info :=
  { open_ap with security := wifi_security.WPA2, channel := 11 }

/-- A frame of `n` bytes. -/
def frame (n : Nat) : sk_buff :=
  { len := n, data := List.replicate n 0, dev := none, protocol := 0 }

/-- No entropy: every `get_random_bytes` call delivers the empty string. -/
def no_rnd : Nat → List Nat := fun _ => []

/-! ## Shared lemmas -/

theorem emit_dev (w : World) (e : Effect) : (emit w e).dev = w.dev := rfl

theorem emit_g_stats (w : World) (e : Effect) : (emit w e).g_stats = w.g_stats := rfl

theorem emit_trace (w : World) (e : Effect) : (emit w e).trace = w.trace ++ [e] := rfl

theorem emit_state_log (w : World) (e : Effect) : (emit w e).state_log = w.state_log := rfl

theorem set_state_state (w : World) (s : wifi_state) : (set_state w s).dev.state = s := rfl

theorem set_state_trace (w : World) (s : wifi_state) : (set_state w s).trace = w.trace := rfl

theorem count_scan_started_append (t u : List Effect) :
    count_scan_started (t ++ u) = count_scan_started t + count_scan_started u := by
  simp [count_scan_started, List.filter_append]

theorem submitted_append (t u : List Effect) :
    submitted (t ++ u) = submitted t ++ submitted u := by
  simp [submitted, List.filterMap_append]

/-- The guard of `wifi_core_scan_start`: outside Disconnected the call is a
no-op returning `-EBUSY`. -/
theorem wifi_core_scan_start_guard (w : World)
    (h : w.dev.state ≠ wifi_state.DISCONNECTED) :
    wifi_core_scan_start w = (-EBUSY, w) := by
  simp [wifi_core_scan_start, h]

/-! ## C1 - C4 : guards of the state machine -/

/-- C1 (code defect, evaluation at the failing input). On the device produced
by initialisation, `start_scan` followed by `connect` writes the state changes
Disconnected -> Scanning, Scanning -> Authenticating, Authenticating ->
Disconnected, and the table of section 4.2 has no row from Scanning to
Authenticating under any event: `wifi_core_connect` has no state guard. -/
theorem C1_connect_while_scanning_leaves_table :
    (run_events init_world
        [CoreEvent.start_scan, CoreEvent.connect (some open_ap) no_rnd]).state_log
      = [(wifi_state.DISCONNECTED, wifi_state.SCANNING),
         (wifi_state.SCANNING, wifi_state.AUTHENTICATING),
         (wifi_state.AUTHENTICATING, wifi_state.DISCONNECTED)]
    ∧ (init_world.dev.state = wifi_state.DISCONNECTED)
    ∧ ∀ ev : TableEvent,
        spec_table_edge wifi_state.SCANNING ev wifi_state.AUTHENTICATING = false := by
  refine ⟨rfl, rfl, ?_⟩
  intro ev
  cases ev <;> rfl

/-- C2 (code defect, evaluation at the failing input). On a Connected device
`wifi_core_connect` is not rejected: with an open target it returns 0 after
calling both `wpa_start_auth` and `mac_associate`; with a WEP target it returns
`-ENOTSUPP` after calling `wpa_start_auth` and leaves the device Disconnected,
so the existing connection is lost. -/
theorem C2_connect_while_connected_not_rejected :
    connected_world.dev.state = wifi_state.CONNECTED
    ∧ (wifi_core_connect connected_world (some open_ap) no_rnd).1 = 0
    ∧ (wifi_core_connect connected_world (some open_ap) no_rnd).2.trace
        = [Effect.wpa_start_auth (some open_ap), Effect.mac_associate (some open_ap),
           Effect.cfg80211_report_association open_ap.bssid]
    ∧ (wifi_core_connect connected_world (some wep_ap) no_rnd).1 = -ENOTSUPP
    ∧ (wifi_core_connect connected_world (some wep_ap) no_rnd).2.dev.state
        = wifi_state.DISCONNECTED
    ∧ (wifi_core_connect connected_world (some wep_ap) no_rnd).2.trace
        = [Effect.wpa_start_auth (some wep_ap)] := by
  refine ⟨rfl, ?_, ?_, ?_, ?_, ?_⟩ <;> decide

/-- C3. When the state is not Disconnected, `wifi_core_scan_start` returns
`-EBUSY` and hands back the world it was given: state, every other device
field, the counters, the trace (so no `scan_started` notification) and the log
of state writes are all unchanged. -/
theorem C3_scan_start_busy (w : World) (h : w.dev.state ≠ wifi_state.DISCONNECTED) :
    wifi_core_scan_start w = (-EBUSY, w) :=
  wifi_core_scan_start_guard w h

/-- Witness of C3 on a device that is scanning. -/
theorem C3_scan_start_busy_witness :
    scanning_world.dev.state ≠ wifi_state.DISCONNECTED
    ∧ wifi_core_scan_start scanning_world = (-EBUSY, scanning_world) :=
  ⟨by decide, C3_scan_start_busy scanning_world (by decide)⟩

/-- C4. From Disconnected, two `wifi_core_scan_start` calls in a row: the first
returns 0 and sets Scanning, the second returns `-EBUSY`, the state after both
is Scanning, the state was written exactly once (Disconnected -> Scanning), and
the trace grew by exactly one `scan_started` notification. -/
theorem C4_scan_start_twice (w : World) (h : w.dev.state = wifi_state.DISCONNECTED) :
    (wifi_core_scan_start w).1 = 0
    ∧ (wifi_core_scan_start w).2.dev.state = wifi_state.SCANNING
    ∧ (wifi_core_scan_start (wifi_core_scan_start w).2).1 = -EBUSY
    ∧ (wifi_core_scan_start (wifi_core_scan_start w).2).2.dev.state = wifi_state.SCANNING
    ∧ (wifi_core_scan_start (wifi_core_scan_start w).2).2.state_log
        = w.state_log ++ [(wifi_state.DISCONNECTED, wifi_state.SCANNING)]
    ∧ (wifi_core_scan_start (wifi_core_scan_start w).2).2.trace
        = w.trace ++ [Effect.cfg80211_notify_scan_started w.dev.netdev]
    ∧ count_scan_started (wifi_core_scan_start (wifi_core_scan_start w).2).2.trace
        = count_scan_started w.trace + 1 := by
  have h1 : wifi_core_scan_start w
      = (0, cfg80211_notify_scan_started (set_state w wifi_state.SCANNING) w.dev.netdev) := by
    simp [wifi_core_scan_start, h, set_state]
  have hs : (cfg80211_notify_scan_started (set_state w wifi_state.SCANNING)
      w.dev.netdev).dev.state ≠ wifi_state.DISCONNECTED := by
    simp [cfg80211_notify_scan_started, emit, set_state]
  have h2 := wifi_core_scan_start_guard _ hs
  rw [h1]
  dsimp only
  rw [h2]
  refine ⟨rfl, rfl, rfl, rfl, ?_, rfl, ?_⟩
  · simp [cfg80211_notify_scan_started, emit, set_state, h]
  · simp [cfg80211_notify_scan_started, emit, set_state, count_scan_started]

/-- Witness of C4 on a device with both contexts attached. -/
theorem C4_scan_start_twice_witness :
    disconnected_world.dev.state = wifi_state.DISCONNECTED
    ∧ (wifi_core_scan_start disconnected_world).1 = 0
    ∧ (wifi_core_scan_start (wifi_core_scan_start disconnected_world).2).1 = -EBUSY
    ∧ count_scan_started
        (wifi_core_scan_start (wifi_core_scan_start disconnected_world).2).2.trace
        = count_scan_started disconnected_world.trace + 1 :=
  have h := C4_scan_start_twice disconnected_world rfl
  ⟨rfl, h.1, h.2.2.1, h.2.2.2.2.2.2⟩

/-! ## C5 - C6 : roaming -/

/-- C5 (code defect). On a Connected device a sample below -75 dBm makes
`wifi_core_check_roaming` write Connected -> Roaming and then call
`wifi_core_scan_start`, which finds the state already Roaming and returns
`-EBUSY`: the state ends Roaming but the trace is unchanged, so no
`scan_started` notification is emitted (the claim asks for exactly one). -/
theorem C5_roam_trigger_emits_nothing (w : World) (current_rssi : Int)
    (h : w.dev.state = wifi_state.CONNECTED) (hr : current_rssi < -75) :
    (wifi_core_check_roaming w current_rssi).dev.state = wifi_state.ROAMING
    ∧ (wifi_core_check_roaming w current_rssi).state_log
        = w.state_log ++ [(wifi_state.CONNECTED, wifi_state.ROAMING)]
    ∧ (wifi_core_scan_start (set_state w wifi_state.ROAMING)).1 = -EBUSY
    ∧ (wifi_core_check_roaming w current_rssi).trace = w.trace
    ∧ count_scan_started (wifi_core_check_roaming w current_rssi).trace
        = count_scan_started w.trace := by
  have hs : (set_state w wifi_state.ROAMING).dev.state ≠ wifi_state.DISCONNECTED := by
    simp [set_state]
  have h2 := wifi_core_scan_start_guard _ hs
  have h3 : wifi_core_check_roaming w current_rssi = set_state w wifi_state.ROAMING := by
    have hr2 : current_rssi < ROAM_RSSI_THRESHOLD := hr
    simp [wifi_core_check_roaming, h, hr2, h2]
  rw [h3, h2]
  refine ⟨rfl, ?_, rfl, rfl, rfl⟩
  simp [set_state, h]

/-- Evaluation of C5 at the failing input: Connected device, sample -80 dBm. -/
theorem C5_roam_trigger_emits_nothing_witness :
    connected_world.dev.state = wifi_state.CONNECTED
    ∧ (wifi_core_check_roaming connected_world (-80)).dev.state = wifi_state.ROAMING
    ∧ (wifi_core_check_roaming connected_world (-80)).trace = []
    ∧ count_scan_started (wifi_core_check_roaming connected_world (-80)).trace = 0 :=
  have h := C5_roam_trigger_emits_nothing connected_world (-80) rfl (by decide)
  ⟨rfl, h.1, h.2.2.2.1, h.2.2.2.2⟩

/-- C6. A sample at or above -75 dBm on any device, or any sample on a device
that is not Connected, makes `wifi_core_check_roaming` hand back the world it
was given: no state write, no field changed, nothing emitted. -/
theorem C6_no_roam (w : World) (current_rssi : Int)
    (h : w.dev.state ≠ wifi_state.CONNECTED ∨ -75 ≤ current_rssi) :
    wifi_core_check_roaming w current_rssi = w := by
  unfold wifi_core_check_roaming
  rcases h with h | h
  · simp [h]
  · have hr : ¬ current_rssi < ROAM_RSSI_THRESHOLD := by
      simp only [ROAM_RSSI_THRESHOLD]
      omega
    simp [hr]

/-- Witness of C6 at the boundary: Connected device, sample exactly -75 dBm. -/
theorem C6_no_roam_witness :
    connected_world.dev.state = wifi_state.CONNECTED
    ∧ wifi_core_check_roaming connected_world (-75) = connected_world :=
  ⟨rfl, C6_no_roam connected_world (-75) (Or.inr (by decide))⟩

/-! ## C7 - C10 : TX path -/

/-- C7. When the state is not Connected, `wifi_core_tx` returns `-ENOTCONN`;
the device (its TX queue included) and the counters are unchanged, and the
only call made is the release of the frame: no QoS tag, no encryption, no
submit, and the workqueue has no new job to run. -/
theorem C7_tx_not_connected (w : World) (skb : sk_buff) (alloc_ok : Bool)
    (h : w.dev.state ≠ wifi_state.CONNECTED) :
    (wifi_core_tx w skb alloc_ok).1 = -ENOTCONN
    ∧ (wifi_core_tx w skb alloc_ok).2.dev = w.dev
    ∧ (wifi_core_tx w skb alloc_ok).2.dev.tx_wq = w.dev.tx_wq
    ∧ (wifi_core_tx w skb alloc_ok).2.g_stats = w.g_stats
    ∧ (wifi_core_tx w skb alloc_ok).2.state_log = w.state_log
    ∧ (wifi_core_tx w skb alloc_ok).2.trace = w.trace ++ [Effect.dev_kfree_skb skb]
    ∧ submitted (wifi_core_tx w skb alloc_ok).2.trace = submitted w.trace := by
  have h1 : wifi_core_tx w skb alloc_ok = (-ENOTCONN, dev_kfree_skb w skb) := by
    simp [wifi_core_tx, h]
  rw [h1]
  refine ⟨rfl, rfl, rfl, rfl, rfl, rfl, ?_⟩
  simp [dev_kfree_skb, emit, submitted, List.filterMap_append]

/-- Witness of C7 on a disconnected device with a 100-byte frame. -/
theorem C7_tx_not_connected_witness :
    disconnected_world.dev.state ≠ wifi_state.CONNECTED
    ∧ (wifi_core_tx disconnected_world (frame 100) true).1 = -ENOTCONN
    ∧ (wifi_core_tx disconnected_world (frame 100) true).2.dev.tx_wq = []
    ∧ (wifi_core_tx disconnected_world (frame 100) true).2.g_stats = zero_stats :=
  have h := C7_tx_not_connected disconnected_world (frame 100) true (by decide)
  ⟨by decide, h.1, h.2.2.1, h.2.2.2.1⟩

/-- What the worker does with a frame within the fragmentation threshold:
optional QoS tag, encryption (result dropped), submit. -/
theorem wifi_tx_worker_within (w : World) (tw : tx_work)
    (h : tw.skb.len ≤ w.dev.config.frag_threshold) :
    wifi_tx_worker w tw
      = (mac_tx_submit
          (wpa_encrypt_skb
            (if w.dev.config.qos_enabled then mac_set_qos_tag w tw.skb else w) tw.skb).2
          tw.skb).2 := by
  have h2 : ¬ tw.skb.len > w.dev.config.frag_threshold := by omega
  simp [wifi_tx_worker, h2]

/-- The worker never touches the counters. -/
theorem wifi_tx_worker_g_stats (w : World) (tw : tx_work) :
    (wifi_tx_worker w tw).g_stats = w.g_stats := by
  by_cases h : tw.skb.len > w.dev.config.frag_threshold
  · simp [wifi_tx_worker, h, dev_kfree_skb, emit]
  · rw [wifi_tx_worker_within w tw (by omega)]
    cases hq : w.dev.config.qos_enabled <;> rfl

/-- C9 (counterexample). Threshold 1500, keys not installed, frame of 100
bytes: the encrypt call returns `-ENOKEY`, yet the worker goes on to submit the
frame to Link Transport, and `tx_errors` stays 0. -/
theorem C9_nokey_frame_still_submitted :
    (frame 100).len ≤ nokey_world.dev.config.frag_threshold
    ∧ (wpa_encrypt_skb nokey_world (frame 100)).1 = -ENOKEY
    ∧ (wifi_tx_worker nokey_world { skb := frame 100 }).trace
        = [Effect.wpa_encrypt_skb (frame 100) (-ENOKEY), Effect.mac_tx_submit (frame 100),
           Effect.dev_kfree_skb (frame 100)]
    ∧ submitted (wifi_tx_worker nokey_world { skb := frame 100 }).trace = [frame 100]
    ∧ nokey_world.g_stats.tx_errors = 0
    ∧ (wifi_tx_worker nokey_world { skb := frame 100 }).g_stats.tx_errors = 0 := by
  refine ⟨by decide, by decide, by decide, by decide, rfl, ?_⟩
  rw [wifi_tx_worker_g_stats]
  rfl

/-- C9 (amended). For a job within the fragmentation threshold on a device whose
security context is missing or has no installed key, the encrypt call made by
the worker returns `-ENOKEY`, and the worker changes no counter: the job is not
counted as a TX error. -/
theorem C9_nokey_not_counted (w : World) (tw : tx_work)
    (h : tw.skb.len ≤ w.dev.config.frag_threshold)
    (hk : ∀ ctx, w.dev.sec_ctx = some ctx → ctx.keys_installed = false) :
    wpa_encrypt_ret w.dev.sec_ctx = -ENOKEY
    ∧ Effect.wpa_encrypt_skb tw.skb (-ENOKEY) ∈ (wifi_tx_worker w tw).trace
    ∧ (wifi_tx_worker w tw).g_stats = w.g_stats := by
  have hret : wpa_encrypt_ret w.dev.sec_ctx = -ENOKEY := by
    cases hc : w.dev.sec_ctx with
    | none => rfl
    | some ctx => simp [wpa_encrypt_ret, hk ctx hc]
  refine ⟨hret, ?_, wifi_tx_worker_g_stats w tw⟩
  rw [wifi_tx_worker_within w tw h]
  cases hq : w.dev.config.qos_enabled <;>
    simp [mac_tx_submit, wpa_encrypt_skb, mac_set_qos_tag, dev_kfree_skb, emit, hret]

/-- Witness of C9 (amended) on `nokey_world` with a 100-byte frame. -/
theorem C9_nokey_not_counted_witness :
    wpa_encrypt_ret nokey_world.dev.sec_ctx = -ENOKEY
    ∧ Effect.wpa_encrypt_skb (frame 100) (-ENOKEY)
        ∈ (wifi_tx_worker nokey_world { skb := frame 100 }).trace
    ∧ (wifi_tx_worker nokey_world { skb := frame 100 }).g_stats = nokey_world.g_stats :=
  C9_nokey_not_counted nokey_world { skb := frame 100 } (by decide)
    (by
      intro ctx hc
      have he : ctx = { sample_sec_ctx with keys_installed := false } :=
        (Option.some.inj hc).symm
      rw [he])

/-- The trace of `wifi_core_rx` when decryption fails. -/
theorem wifi_core_rx_fail (w : World) (skb : sk_buff) (proto : Nat)
    (h : wpa_decrypt_ret w.dev.sec_ctx < 0) :
    wifi_core_rx w skb proto
      = dev_kfree_skb (emit w (Effect.wpa_decrypt_skb skb (wpa_decrypt_ret w.dev.sec_ctx)))
          skb := by
  simp [wifi_core_rx, wpa_decrypt_skb, h]

/-- The trace of `wifi_core_rx` when decryption succeeds. -/
theorem wifi_core_rx_ok (w : World) (skb : sk_buff) (proto : Nat)
    (h : ¬ wpa_decrypt_ret w.dev.sec_ctx < 0) :
    wifi_core_rx w skb proto
      = emit (emit w (Effect.wpa_decrypt_skb skb (wpa_decrypt_ret w.dev.sec_ctx)))
          (Effect.netif_rx { skb with dev := some w.dev.netdev, protocol := proto }) := by
  simp [wifi_core_rx, wpa_decrypt_skb, h]

/-- On RX the counters are never touched. -/
theorem wifi_core_rx_g_stats (w : World) (skb : sk_buff) (proto : Nat) :
    (wifi_core_rx w skb proto).g_stats = w.g_stats := by
  by_cases h : wpa_decrypt_ret w.dev.sec_ctx < 0
  · rw [wifi_core_rx_fail w skb proto h]; rfl
  · rw [wifi_core_rx_ok w skb proto h]; rfl

/-- C11 (counterexample). Keys not installed, frame of 100 bytes: decryption
returns `-ENOKEY`, the frame is released, and `rx_errors` and `rx_dropped` both
stay 0. -/
theorem C11_rx_drop_not_counted :
    (wpa_decrypt_skb nokey_world (frame 100)).1 = -ENOKEY
    ∧ (wifi_core_rx nokey_world (frame 100) 2048).trace
        = [Effect.wpa_decrypt_skb (frame 100) (-ENOKEY), Effect.dev_kfree_skb (frame 100)]
    ∧ nokey_world.g_stats.rx_errors = 0
    ∧ nokey_world.g_stats.rx_dropped = 0
    ∧ (wifi_core_rx nokey_world (frame 100) 2048).g_stats.rx_errors = 0
    ∧ (wifi_core_rx nokey_world (frame 100) 2048).g_stats.rx_dropped = 0
    ∧ (wifi_core_rx nokey_world (frame 100) 2048).g_stats.rx_errors
        ≠ (nokey_world.g_stats.rx_errors + 1) % 2 ^ 32 := by
  refine ⟨by decide, by decide, rfl, rfl, ?_, ?_, ?_⟩
  · rw [wifi_core_rx_g_stats]; rfl
  · rw [wifi_core_rx_g_stats]; rfl
  · rw [wifi_core_rx_g_stats]; decide

/-- C11 (amended). When decryption fails, `wifi_core_rx` calls decrypt once, then
releases the frame: nothing is delivered upstream, the device is unchanged and
no counter changes. On any device a frame is delivered upstream (with `dev` and
`protocol` filled in) exactly when decryption does not fail. -/
theorem C11_rx_decrypt_failure_drops (w v : World) (skb : sk_buff) (proto : Nat)
    (h : wpa_decrypt_ret w.dev.sec_ctx < 0) :
    (wifi_core_rx w skb proto).trace
      = w.trace ++ [Effect.wpa_decrypt_skb skb (wpa_decrypt_ret w.dev.sec_ctx),
                    Effect.dev_kfree_skb skb]
    ∧ delivered (wifi_core_rx w skb proto).trace = delivered w.trace
    ∧ (wifi_core_rx w skb proto).dev = w.dev
    ∧ (wifi_core_rx w skb proto).g_stats = w.g_stats
    ∧ (delivered (wifi_core_rx v skb proto).trace
          = delivered v.trace ++ [{ skb with dev := some v.dev.netdev, protocol := proto }]
        ↔ ¬ wpa_decrypt_ret v.dev.sec_ctx < 0) := by
  refine ⟨?_, ?_, ?_, wifi_core_rx_g_stats w skb proto, ?_⟩
  · rw [wifi_core_rx_fail w skb proto h]
    simp [dev_kfree_skb, emit]
  · rw [wifi_core_rx_fail w skb proto h]
    simp [dev_kfree_skb, emit, delivered, List.filterMap_append]
  · rw [wifi_core_rx_fail w skb proto h]
    rfl
  · constructor
    · intro hd hv
      rw [wifi_core_rx_fail v skb proto hv] at hd
      have hl := congrArg List.length hd
      simp [dev_kfree_skb, emit, delivered, List.filterMap_append] at hl
    · intro hv
      rw [wifi_core_rx_ok v skb proto hv]
      simp [emit, delivered, List.filterMap_append]

/-- Witness of C11 (amended): failure on `nokey_world`, delivery on
`connected_world`. -/
theorem C11_rx_decrypt_failure_drops_witness :
    wpa_decrypt_ret nokey_world.dev.sec_ctx < 0
    ∧ delivered (wifi_core_rx nokey_world (frame 100) 2048).trace = []
    ∧ (wifi_core_rx nokey_world (frame 100) 2048).g_stats = zero_stats
    ∧ delivered (wifi_core_rx connected_world (frame 100) 2048).trace
        = [{ frame 100 with dev := some 7, protocol := 2048 }] :=
  have h := C11_rx_decrypt_failure_drops nokey_world connected_world (frame 100) 2048
    (by decide)
  ⟨by decide, h.2.1, h.2.2.2.1, h.2.2.2.2.mpr (by decide)⟩

/-! ## C12 - C13 : transmit power -/

/-- C12. For `dbm > 30`, `wifi_core_set_tx_power` returns `-EINVAL` and hands
back the world it was given: config, state and trace (no Link Transport call)
are unchanged. -/
theorem C12_set_tx_power_rejects (w : World) (dbm : Nat) (h : dbm > 30) :
    wifi_core_set_tx_power w dbm = (-EINVAL, w) := by
  simp [wifi_core_set_tx_power, h]

/-- Witness of C12 at 31 dBm. -/
theorem C12_set_tx_power_rejects_witness :
    wifi_core_set_tx_power connected_world 31 = (-EINVAL, connected_world)
    ∧ (wifi_core_set_tx_power connected_world 31).2.dev.config.tx_power_dbm = 20 :=
  have h := C12_set_tx_power_rejects connected_world 31 (by decide)
  ⟨h, by rw [h]; rfl⟩

/-- C13. For `dbm ≤ 30`, `wifi_core_set_tx_power` stores `dbm` in
`config.tx_power_dbm` (no other config field changes), makes exactly one
`mac_set_tx_power` call and returns its result: 0 when the transport has a
context, `-EINVAL` when it has none, the config being updated in both cases.
The state and every device field other than the config and the transport
context are unchanged. -/
theorem C13_set_tx_power_stores (w : World) (dbm : Nat) (h : dbm ≤ 30) :
    (wifi_core_set_tx_power w dbm).2.dev.config
      = { w.dev.config with tx_power_dbm := dbm }
    ∧ (wifi_core_set_tx_power w dbm).2.dev.config.tx_power_dbm = dbm
    ∧ (wifi_core_set_tx_power w dbm).1
        = (mac_set_tx_power
            { w with dev := { w.dev with
                config := { w.dev.config with tx_power_dbm := dbm } } } dbm).1
    ∧ ((wifi_core_set_tx_power w dbm).1 = 0 ↔ w.dev.mac_ctx ≠ none)
    ∧ ((wifi_core_set_tx_power w dbm).1 = -EINVAL ↔ w.dev.mac_ctx = none)
    ∧ (wifi_core_set_tx_power w dbm).2.trace = w.trace ++ [Effect.mac_set_tx_power dbm]
    ∧ (wifi_core_set_tx_power w dbm).2.dev
        = { w.dev with
            config := { w.dev.config with tx_power_dbm := dbm },
            mac_ctx := w.dev.mac_ctx.map (fun c => { c with tx_power := dbm }) }
    ∧ (wifi_core_set_tx_power w dbm).2.dev.state = w.dev.state := by
  have h1 : wifi_core_set_tx_power w dbm
      = mac_set_tx_power
          { w with dev := { w.dev with
              config := { w.dev.config with tx_power_dbm := dbm } } } dbm := by
    have h2 : ¬ dbm > 30 := by omega
    simp [wifi_core_set_tx_power, h2]
  rw [h1]
  cases hm : w.dev.mac_ctx <;>
    simp [mac_set_tx_power, emit, hm, EINVAL]

/-- Witness of C13 at 20 dBm and at the boundary 30 dBm, with and without a
transport context. -/
theorem C13_set_tx_power_stores_witness :
    (wifi_core_set_tx_power connected_world 20).1 = 0
    ∧ (wifi_core_set_tx_power connected_world 20).2.dev.config.tx_power_dbm = 20
    ∧ (wifi_core_set_tx_power connected_world 30).2.dev.config.tx_power_dbm = 30
    ∧ (wifi_core_set_tx_power nomac_world 30).1 = -EINVAL
    ∧ (wifi_core_set_tx_power nomac_world 30).2.dev.config.tx_power_dbm = 30 :=
  have h20 := C13_set_tx_power_stores connected_world 20 (by decide)
  have h30 := C13_set_tx_power_stores connected_world 30 (by decide)
  have hn := C13_set_tx_power_stores nomac_world 30 (by decide)
  ⟨h20.2.2.2.1.mpr (by decide), h20.2.1, h30.2.1, hn.2.2.2.2.1.mpr rfl, hn.2.1⟩

/-! ## C14 - C15 : disconnect and connect -/

/-- What `wifi_core_disconnect` leaves behind, for either result of
`mac_disassociate`. -/
theorem wifi_core_disconnect_effect (w : World) :
    (wifi_core_disconnect w).dev.state = wifi_state.DISCONNECTED
    ∧ (wifi_core_disconnect w).state_log
        = w.state_log ++ [(w.dev.state, wifi_state.DISCONNECTED)]
    ∧ ((mac_disassociate w).1 ≠ 0 →
        (wifi_core_disconnect w).trace
          = w.trace ++ [Effect.mac_disassociate, Effect.wpa_reset,
                        Effect.cfg80211_notify_disconnected w.dev.netdev])
    ∧ ((mac_disassociate w).1 = 0 →
        (wifi_core_disconnect w).trace
          = w.trace ++ [Effect.mac_disassociate, Effect.cfg80211_report_disassociation,
                        Effect.wpa_reset, Effect.cfg80211_notify_disconnected w.dev.netdev])
    ∧ count_disconnected (wifi_core_disconnect w).trace = count_disconnected w.trace + 1
    ∧ Effect.wpa_reset ∈ (wifi_core_disconnect w).trace
    ∧ Effect.mac_disassociate ∈ (wifi_core_disconnect w).trace := by
  cases hm : w.dev.mac_ctx <;> cases hs : w.dev.sec_ctx <;>
    simp [wifi_core_disconnect, mac_disassociate, wpa_reset, set_state,
      cfg80211_notify_disconnected, cfg80211_report_disassociation, emit, hm, hs,
      count_disconnected, List.filter_append, EINVAL]

/-- C14. From Connected, `wifi_core_disconnect` ends in Disconnected with the
single state write Connected -> Disconnected and exactly one `disconnected`
notification, whether `mac_disassociate` returns 0 or an error; it calls
`mac_disassociate` and `wpa_reset`. -/
theorem C14_disconnect_always (w : World) (h : w.dev.state = wifi_state.CONNECTED) :
    (wifi_core_disconnect w).dev.state = wifi_state.DISCONNECTED
    ∧ (wifi_core_disconnect w).state_log
        = w.state_log ++ [(wifi_state.CONNECTED, wifi_state.DISCONNECTED)]
    ∧ ((mac_disassociate w).1 ≠ 0 →
        (wifi_core_disconnect w).trace
          = w.trace ++ [Effect.mac_disassociate, Effect.wpa_reset,
                        Effect.cfg80211_notify_disconnected w.dev.netdev])
    ∧ ((mac_disassociate w).1 = 0 →
        (wifi_core_disconnect w).trace
          = w.trace ++ [Effect.mac_disassociate, Effect.cfg80211_report_disassociation,
                        Effect.wpa_reset, Effect.cfg80211_notify_disconnected w.dev.netdev])
    ∧ count_disconnected (wifi_core_disconnect w).trace = count_disconnected w.trace + 1
    ∧ Effect.wpa_reset ∈ (wifi_core_disconnect w).trace
    ∧ Effect.mac_disassociate ∈ (wifi_core_disconnect w).trace := by
  have e := wifi_core_disconnect_effect w
  rw [h] at e
  exact e

/-- Witness of C14: disassociation succeeding (`connected_world`) and failing
(`nomac_world`). -/
theorem C14_disconnect_always_witness :
    (mac_disassociate connected_world).1 = 0
    ∧ (mac_disassociate nomac_world).1 = -EINVAL
    ∧ (wifi_core_disconnect connected_world).dev.state = wifi_state.DISCONNECTED
    ∧ (wifi_core_disconnect nomac_world).dev.state = wifi_state.DISCONNECTED
    ∧ count_disconnected (wifi_core_disconnect connected_world).trace = 1
    ∧ count_disconnected (wifi_core_disconnect nomac_world).trace = 1 :=
  have hc := C14_disconnect_always connected_world rfl
  have hn := C14_disconnect_always nomac_world rfl
  ⟨rfl, rfl, hc.1, hn.1, hc.2.2.2.2.1, hn.2.2.2.2.1⟩

/-- C15. From Disconnected, with `a` the result of `wpa_start_auth` (called in
state Authenticating) and `m` the result of `mac_associate` (called in state
Associating after a successful authentication): `wifi_core_connect` returns 0
and ends Connected exactly when both return 0; when `a` fails it returns the
authentication error, ends Disconnected and has made no call but
`wpa_start_auth`; when `a` succeeds and `m` fails it returns the association
error and ends Disconnected. The final state is never Authenticating or
Associating; on success the state writes are Disconnected -> Authenticating ->
Associating -> Connected. -/
theorem C15_connect_outcomes (w : World) (target : Option wifi_bss_info)
    (rnd : Nat → List Nat) (h : w.dev.state = wifi_state.DISCONNECTED) :
    (((wifi_core_connect w target rnd).1 = 0
        ∧ (wifi_core_connect w target rnd).2.dev.state = wifi_state.CONNECTED)
      ↔ ((wpa_start_auth (set_state w wifi_state.AUTHENTICATING) target rnd).1 = 0
        ∧ (mac_associate
            (set_state (wpa_start_auth (set_state w wifi_state.AUTHENTICATING) target rnd).2
              wifi_state.ASSOCIATING) target).1 = 0))
    ∧ ((wifi_core_connect w target rnd).1 = 0
        ↔ (wifi_core_connect w target rnd).2.dev.state = wifi_state.CONNECTED)
    ∧ ((wpa_start_auth (set_state w wifi_state.AUTHENTICATING) target rnd).1 ≠ 0 →
        (wifi_core_connect w target rnd).1
            = (wpa_start_auth (set_state w wifi_state.AUTHENTICATING) target rnd).1
          ∧ (wifi_core_connect w target rnd).2.dev.state = wifi_state.DISCONNECTED
          ∧ (wifi_core_connect w target rnd).2.trace
              = w.trace ++ [Effect.wpa_start_auth target])
    ∧ ((wpa_start_auth (set_state w wifi_state.AUTHENTICATING) target rnd).1 = 0 →
        (mac_associate
            (set_state (wpa_start_auth (set_state w wifi_state.AUTHENTICATING) target rnd).2
              wifi_state.ASSOCIATING) target).1 ≠ 0 →
        (wifi_core_connect w target rnd).1
            = (mac_associate
                (set_state
                  (wpa_start_auth (set_state w wifi_state.AUTHENTICATING) target rnd).2
                  wifi_state.ASSOCIATING) target).1
          ∧ (wifi_core_connect w target rnd).2.dev.state = wifi_state.DISCONNECTED)
    ∧ (wifi_core_connect w target rnd).2.dev.state ≠ wifi_state.AUTHENTICATING
    ∧ (wifi_core_connect w target rnd).2.dev.state ≠ wifi_state.ASSOCIATING
    ∧ ((wifi_core_connect w target rnd).2.dev.state = wifi_state.CONNECTED
        ∨ (wifi_core_connect w target rnd).2.dev.state = wifi_state.DISCONNECTED)
    ∧ ((wifi_core_connect w target rnd).1 = 0 →
        (wifi_core_connect w target rnd).2.state_log
          = w.state_log ++ [(wifi_state.DISCONNECTED, wifi_state.AUTHENTICATING),
                            (wifi_state.AUTHENTICATING, wifi_state.ASSOCIATING),
                            (wifi_state.ASSOCIATING, wifi_state.CONNECTED)]) := by
  rcases target with _ | b
  · cases hs : w.dev.sec_ctx <;>
      simp [wifi_core_connect, wpa_start_auth, set_state, emit, hs, h, EINVAL]
  · cases hs : w.dev.sec_ctx <;> cases hm : w.dev.mac_ctx <;> cases hb : b.security <;>
      simp [wifi_core_connect, wpa_start_auth, mac_associate, cfg80211_report_association,
        set_state, emit, hs, hm, hb, h, EINVAL, ENOTSUPP]

/-- Witness of C15: success (open target, both contexts), authentication
failure (WEP target) and association failure (no transport context). -/
theorem C15_connect_outcomes_witness :
    ((wifi_core_connect disconnected_world (some open_ap) no_rnd).1 = 0
      ∧ (wifi_core_connect disconnected_world (some open_ap) no_rnd).2.dev.state
          = wifi_state.CONNECTED)
    ∧ ((wifi_core_connect disconnected_world (some wep_ap) no_rnd).1 = -ENOTSUPP
      ∧ (wifi_core_connect disconnected_world (some wep_ap) no_rnd).2.dev.state
          = wifi_state.DISCONNECTED
      ∧ (wifi_core_connect disconnected_world (some wep_ap) no_rnd).2.trace
          = [Effect.wpa_start_auth (some wep_ap)])
    ∧ ((wifi_core_connect
          { nomac_world with dev := { nomac_world.dev with state := wifi_state.DISCONNECTED } }
          (some open_ap) no_rnd).1 = -EINVAL
      ∧ (wifi_core_connect
          { nomac_world with dev := { nomac_world.dev with state := wifi_state.DISCONNECTED } }
          (some open_ap) no_rnd).2.dev.state = wifi_state.DISCONNECTED) :=
  ⟨(C15_connect_outcomes disconnected_world (some open_ap) no_rnd rfl).1.mpr
      ⟨by decide, by decide⟩,
    (C15_connect_outcomes disconnected_world (some wep_ap) no_rnd rfl).2.2.1 (by decide),
    (C15_connect_outcomes
      { nomac_world with dev := { nomac_world.dev with state := wifi_state.DISCONNECTED } }
      (some open_ap) no_rnd rfl).2.2.2.1 (by decide) (by decide)⟩

/-! ## C16 : BSS catalog -/

/-- The world after a run of successful `wifi_core_scan_result` calls: the new
entries sit in front of the old list, newest first, and nothing else changes. -/
theorem record_all_eq (order : List (wifi_bss_info × Nat)) (w : World) :
    record_all w order
      = { w with dev := { w.dev with
            bss_list := (order.map bss_entry_of).reverse ++ w.dev.bss_list } } := by
  induction order generalizing w with
  | nil => rfl
  | cons r rest ih =>
    have hstep : record_all w (r :: rest)
        = record_all (wifi_core_scan_result w r.1 true r.2) rest := rfl
    rw [hstep, ih]
    simp [wifi_core_scan_result, bss_entry_of]

/-- C16. Let `recs` be N records (with the tick each call read) and `order` any
order in which their list insertions are serialised by `bss_lock`. With
allocation succeeding, the catalog afterwards is the new entries (newest first)
in front of the untouched old list: it holds exactly N more entries, the added
entries are a permutation of the N records (so records sharing a BSSID stay
separate entries), the whole catalog is a permutation of records plus old
entries, and no other part of the world changes. -/
theorem C16_catalog_appends (w : World) (recs order : List (wifi_bss_info × Nat))
    (h : order.Perm recs) :
    (record_all w order).dev.bss_list
      = (order.map bss_entry_of).reverse ++ w.dev.bss_list
    ∧ (record_all w order).dev.bss_list.length = w.dev.bss_list.length + recs.length
    ∧ ((order.map bss_entry_of).reverse).Perm (recs.map bss_entry_of)
    ∧ ((record_all w order).dev.bss_list).Perm (recs.map bss_entry_of ++ w.dev.bss_list)
    ∧ record_all w order
        = { w with dev := { w.dev with bss_list := (record_all w order).dev.bss_list } } := by
  have hp : ((order.map bss_entry_of).reverse).Perm (recs.map bss_entry_of) :=
    (List.reverse_perm _).trans (h.map bss_entry_of)
  rw [record_all_eq order w]
  refine ⟨rfl, ?_, hp, hp.append_right _, rfl⟩
  have hl := h.length_eq
  simp [hl]
  omega

/-- Witness of C16: two records sharing a BSSID, inserted in the opposite order,
into a catalog that already holds one entry. -/
theorem C16_catalog_appends_witness :
    open_ap.bssid = wpa2_ap.bssid
    ∧ (record_all
        { scanning_world with dev := { scanning_world.dev with
            bss_list := [bss_entry_of (wep_ap, 5)] } }
        [(wpa2_ap, 20), (open_ap, 10)]).dev.bss_list
      = [bss_entry_of (open_ap, 10), bss_entry_of (wpa2_ap, 20), bss_entry_of (wep_ap, 5)]
    ∧ (record_all
        { scanning_world with dev := { scanning_world.dev with
            bss_list := [bss_entry_of (wep_ap, 5)] } }
        [(wpa2_ap, 20), (open_ap, 10)]).dev.bss_list.length = 1 + 2 :=
  have h := C16_catalog_appends
    { scanning_world with dev := { scanning_world.dev with
        bss_list := [bss_entry_of (wep_ap, 5)] } }
    [(open_ap, 10), (wpa2_ap, 20)] [(wpa2_ap, 20), (open_ap, 10)]
    (List.Perm.swap _ _ [])
  ⟨rfl, h.1, h.2.1⟩

/-! ## C17 : suspend and resume -/

/-- C17. `wifi_core_suspend` and `wifi_core_resume` return 0 whether
`mac_set_power_save` returns 0 (context present) or `-EINVAL` (context
missing). State, config, counters and the log of state writes are unchanged;
the only call is `mac_set_power_save` with `true` on suspend and `false` on
resume, and the only device field that can change is the `power_save` flag of
the transport context. -/
theorem C17_suspend_resume (w : World) :
    (wifi_core_suspend w).1 = 0
    ∧ (wifi_core_resume w).1 = 0
    ∧ ((mac_set_power_save w true).1 = -EINVAL ↔ w.dev.mac_ctx = none)
    ∧ ((mac_set_power_save w false).1 = -EINVAL ↔ w.dev.mac_ctx = none)
    ∧ (wifi_core_suspend w).2.dev.state = w.dev.state
    ∧ (wifi_core_resume w).2.dev.state = w.dev.state
    ∧ (wifi_core_suspend w).2.dev.config = w.dev.config
    ∧ (wifi_core_resume w).2.dev.config = w.dev.config
    ∧ (wifi_core_suspend w).2.trace = w.trace ++ [Effect.mac_set_power_save true]
    ∧ (wifi_core_resume w).2.trace = w.trace ++ [Effect.mac_set_power_save false]
    ∧ (wifi_core_suspend w).2
        = { w with
            dev := { w.dev with
              mac_ctx := w.dev.mac_ctx.map (fun c => { c with power_save := true }) },
            trace := w.trace ++ [Effect.mac_set_power_save true] }
    ∧ (wifi_core_resume w).2
        = { w with
            dev := { w.dev with
              mac_ctx := w.dev.mac_ctx.map (fun c => { c with power_save := false }) },
            trace := w.trace ++ [Effect.mac_set_power_save false] } := by
  obtain ⟨⟨netdev, state, config, tx_wq, rx_wq, bss_list, mac_ctx, sec_ctx⟩, g, t, sl⟩ := w
  cases mac_ctx <;>
    simp [wifi_core_suspend, wifi_core_resume, mac_set_power_save, emit, EINVAL]

/-! ## C18 : statistics -/

/-- Applying one more update after a sequence. -/
theorem apply_updates_snoc (g : wifi_stats) (l : List StatUpdate) (u : StatUpdate) :
    apply_updates g (l ++ [u]) = apply_update (apply_updates g l) u := by
  simp [apply_updates, List.foldl_append]

/-- The counters after any sequence of updates from the all-zero counters. -/
theorem apply_updates_zero (l : List StatUpdate) :
    (apply_updates zero_stats l).tx_packets = tx_count true l % 2 ^ 64
    ∧ (apply_updates zero_stats l).tx_bytes = tx_byte_sum l % 2 ^ 64
    ∧ (apply_updates zero_stats l).tx_errors = tx_count false l % 2 ^ 32
    ∧ (apply_updates zero_stats l).tx_dropped = tx_count false l % 2 ^ 32
    ∧ (apply_updates zero_stats l).rx_packets = rx_count true l % 2 ^ 64
    ∧ (apply_updates zero_stats l).rx_bytes = rx_byte_sum l % 2 ^ 64
    ∧ (apply_updates zero_stats l).rx_errors = rx_count false l % 2 ^ 32
    ∧ (apply_updates zero_stats l).rx_dropped = rx_count false l % 2 ^ 32 := by
  induction l using List.reverseRecOn with
  | nil => exact ⟨rfl, rfl, rfl, rfl, rfl, rfl, rfl, rfl⟩
  | append_singleton l u ih =>
    obtain ⟨h1, h2, h3, h4, h5, h6, h7, h8⟩ := ih
    rw [apply_updates_snoc]
    rcases u with ⟨b, s⟩ | ⟨b, s⟩ <;> cases s <;>
      simp [apply_update, wifi_core_update_tx_stats, wifi_core_update_rx_stats, tx_count,
        rx_count, tx_byte_sum, rx_byte_sum, List.filter_append, h1, h2, h3, h4, h5, h6, h7, h8,
        Nat.add_mod]

/-- C18. Starting from all-zero counters, after any sequence of
`wifi_core_update_tx_stats` / `wifi_core_update_rx_stats` calls the snapshot of
`wifi_core_get_stats` holds: packets = number of successful updates and bytes
= sum of their byte counts (modulo 2^64), errors = dropped = number of failed
updates (modulo 2^32), for TX and for RX alike. `wifi_core_get_stats` returns
the counters as they are and leaves them unchanged; a TX update changes no RX
counter and an RX update no TX counter. -/
theorem C18_stats_snapshot (l : List StatUpdate) (g : wifi_stats) (bytes : Nat)
    (success : Bool) :
    (wifi_core_get_stats (apply_updates zero_stats l)).1.tx_packets = tx_count true l % 2 ^ 64
    ∧ (wifi_core_get_stats (apply_updates zero_stats l)).1.tx_bytes = tx_byte_sum l % 2 ^ 64
    ∧ (wifi_core_get_stats (apply_updates zero_stats l)).1.tx_errors
        = tx_count false l % 2 ^ 32
    ∧ (wifi_core_get_stats (apply_updates zero_stats l)).1.tx_dropped
        = tx_count false l % 2 ^ 32
    ∧ (wifi_core_get_stats (apply_updates zero_stats l)).1.rx_packets
        = rx_count true l % 2 ^ 64
    ∧ (wifi_core_get_stats (apply_updates zero_stats l)).1.rx_bytes = rx_byte_sum l % 2 ^ 64
    ∧ (wifi_core_get_stats (apply_updates zero_stats l)).1.rx_errors
        = rx_count false l % 2 ^ 32
    ∧ (wifi_core_get_stats (apply_updates zero_stats l)).1.rx_dropped
        = rx_count false l % 2 ^ 32
    ∧ (wifi_core_get_stats g).1 = g
    ∧ (wifi_core_get_stats g).2 = g
    ∧ (wifi_core_update_tx_stats g bytes success).rx_packets = g.rx_packets
    ∧ (wifi_core_update_tx_stats g bytes success).rx_bytes = g.rx_bytes
    ∧ (wifi_core_update_tx_stats g bytes success).rx_errors = g.rx_errors
    ∧ (wifi_core_update_tx_stats g bytes success).rx_dropped = g.rx_dropped
    ∧ (wifi_core_update_rx_stats g bytes success).tx_packets = g.tx_packets
    ∧ (wifi_core_update_rx_stats g bytes success).tx_bytes = g.tx_bytes
    ∧ (wifi_core_update_rx_stats g bytes success).tx_errors = g.tx_errors
    ∧ (wifi_core_update_rx_stats g bytes success).tx_dropped = g.tx_dropped := by
  obtain ⟨h1, h2, h3, h4, h5, h6, h7, h8⟩ := apply_updates_zero l
  refine ⟨h1, h2, h3, h4, h5, h6, h7, h8, rfl, rfl, ?_, ?_, ?_, ?_, ?_, ?_, ?_, ?_⟩ <;>
    cases success <;> rfl

/-! ## C19 : keys -/

/-- Decryption and encryption answer alike. -/
theorem wpa_decrypt_ret_eq (c : Option wpa_context) :
    wpa_decrypt_ret c = wpa_encrypt_ret c := rfl

/-- The world after initialisation satisfies `init_inv`. -/
theorem init_world_inv : init_inv init_world := by
  simp [init_inv, init_world, zero_device]

/-- The log condition of `init_inv`, one pair at a time. -/
theorem state_log_ok_curry (l : List (wifi_state × wifi_state))
    (hl : ∀ p ∈ l, p.2 ≠ wifi_state.CONNECTED ∧ p.2 ≠ wifi_state.ROAMING) :
    ∀ a b, (a, b) ∈ l → ¬ b = wifi_state.CONNECTED ∧ ¬ b = wifi_state.ROAMING :=
  fun a b h => hl (a, b) h

/-- Every core event preserves `init_inv`. -/
theorem apply_event_inv (w : World) (e : CoreEvent) (h : init_inv w) :
    init_inv (apply_event w e) := by
  obtain ⟨hs, hm, hst, hq, hl⟩ := h
  have hl2 := state_log_ok_curry _ hl
  have hC : ∀ a, (a, wifi_state.CONNECTED) ∉ w.state_log := fun a h => (hl2 a _ h).1 rfl
  have hR : ∀ a, (a, wifi_state.ROAMING) ∉ w.state_log := fun a h => (hl2 a _ h).2 rfl
  clear hl
  have hc : w.dev.state ≠ wifi_state.CONNECTED := by
    rcases hst with hst | hst <;> simp [hst]
  cases e with
  | start_scan =>
    rcases hst with hst | hst <;>
      simp [apply_event, wifi_core_scan_start, cfg80211_notify_scan_started, set_state, emit,
        init_inv, hs, hm, hst, hq] <;> intro a b hab <;> aesop
  | scan_result bss alloc_ok jiffies =>
    cases alloc_ok <;>
      simp [apply_event, wifi_core_scan_result, init_inv, hs, hm, hst, hq] <;> exact hl2
  | scan_done =>
    simp [apply_event, wifi_core_scan_done, cfg80211_notify_scan_done, set_state, emit,
      init_inv, hs, hm, hq]
    intro a b hab
    aesop
  | connect target rnd =>
    rcases target with _ | b <;>
      simp [apply_event, wifi_core_connect, wpa_start_auth, set_state, emit, init_inv, hs, hm,
        hq, EINVAL] <;> intro a b hab <;> aesop
  | disconnect =>
    simp [apply_event, wifi_core_disconnect, mac_disassociate, wpa_reset,
      cfg80211_notify_disconnected, set_state, emit, init_inv, hs, hm, hq]
    intro a b hab
    aesop
  | rssi_sample r =>
    simp [apply_event, wifi_core_check_roaming, hc, init_inv, hs, hm, hst, hq]
    exact hl2
  | suspend =>
    simp [apply_event, wifi_core_suspend, mac_set_power_save, emit, init_inv, hs, hm, hst, hq]
    exact hl2
  | resume =>
    simp [apply_event, wifi_core_resume, mac_set_power_save, emit, init_inv, hs, hm, hst, hq]
    exact hl2

/-- Every operation preserves `init_inv`. -/
theorem apply_op_inv (w : World) (op : CoreOp) (h : init_inv w) :
    init_inv (apply_op w op) := by
  cases op with
  | event e => exact apply_event_inv w e h
  | tx skb alloc_ok =>
    obtain ⟨hs, hm, hst, hq, hl⟩ := h
    have hc : w.dev.state ≠ wifi_state.CONNECTED := by
      rcases hst with hst | hst <;> simp [hst]
    simp [apply_op, wifi_core_tx, hc, dev_kfree_skb, emit, init_inv, hs, hm, hst, hq]
    exact state_log_ok_curry _ hl
  | tx_wq_run =>
    have hq := h.2.2.2.1
    simp [apply_op, run_tx_wq, hq]
    exact h
  | rx skb proto =>
    obtain ⟨hs, hm, hst, hq, hl⟩ := h
    simp [apply_op, wifi_core_rx, wpa_decrypt_skb, wpa_decrypt_ret, dev_kfree_skb, emit,
      init_inv, hs, hm, hst, hq, ENOKEY]
    exact state_log_ok_curry _ hl
  | set_tx_power dbm =>
    obtain ⟨hs, hm, hst, hq, hl⟩ := h
    by_cases hd : dbm > 30 <;>
      simp [apply_op, wifi_core_set_tx_power, mac_set_tx_power, emit, init_inv, hd, hs, hm,
        hst, hq] <;> exact state_log_ok_curry _ hl
  | set_rts_threshold thresh => exact h
  | update_tx_stats bytes success => exact h
  | update_rx_stats bytes success => exact h
  | get_stats => exact h
  | fw_load => exact h

/-- Every world reached from initialisation satisfies `init_inv`. -/
theorem run_ops_inv (ops : List CoreOp) (w : World) (h : init_inv w) :
    init_inv (run_ops w ops) := by
  induction ops generalizing w with
  | nil => exact h
  | cons op rest ih => exact ih (apply_op w op) (apply_op_inv w op h)

/-- C20. `wifi_core_init` yields the zero-filled device with both contexts
null. After any sequence of operations on it the contexts are still null, the
state is Disconnected or Scanning (never Connected or Roaming), and no state
write has ever stored Connected or Roaming. At that point every
`wifi_core_connect` returns `-EINVAL` and leaves the state Disconnected, and
every `wifi_core_tx` returns `-ENOTCONN`. -/
theorem C20_connected_unreachable (ops : List CoreOp) (target : Option wifi_bss_info)
    (rnd : Nat → List Nat) (skb : sk_buff) (alloc_ok : Bool) :
    wifi_core_init true true true = (0, some init_world.dev)
    ∧ init_world.dev.sec_ctx = none
    ∧ init_world.dev.mac_ctx = none
    ∧ (run_ops init_world ops).dev.sec_ctx = none
    ∧ (run_ops init_world ops).dev.mac_ctx = none
    ∧ (wifi_core_connect (run_ops init_world ops) target rnd).1 = -EINVAL
    ∧ (wifi_core_connect (run_ops init_world ops) target rnd).2.dev.state
        = wifi_state.DISCONNECTED
    ∧ (run_ops init_world ops).dev.state ≠ wifi_state.CONNECTED
    ∧ (run_ops init_world ops).dev.state ≠ wifi_state.ROAMING
    ∧ (∀ p ∈ (run_ops init_world ops).state_log,
        p.2 ≠ wifi_state.CONNECTED ∧ p.2 ≠ wifi_state.ROAMING)
    ∧ (wifi_core_tx (run_ops init_world ops) skb alloc_ok).1 = -ENOTCONN := by
  obtain ⟨hs, hm, hst, hq, hl⟩ := run_ops_inv ops init_world init_world_inv
  have hc : (run_ops init_world ops).dev.state ≠ wifi_state.CONNECTED := by
    rcases hst with hst | hst <;> simp [hst]
  have hr : (run_ops init_world ops).dev.state ≠ wifi_state.ROAMING := by
    rcases hst with hst | hst <;> simp [hst]
  refine ⟨rfl, rfl, rfl, hs, hm, ?_, ?_, hc, hr, hl, ?_⟩
  · rcases target with _ | b <;>
      simp [wifi_core_connect, wpa_start_auth, set_state, emit, hs, EINVAL]
  · rcases target with _ | b <;>
      simp [wifi_core_connect, wpa_start_auth, set_state, emit, hs, EINVAL]
  · simp [wifi_core_tx, hc]

/-! ## C21 : the configuration reachable from initialisation -/

/-- No core event writes `frag_threshold` or `qos_enabled`. -/
theorem apply_event_config (w : World) (e : CoreEvent) (h : init_inv w) :
    (apply_event w e).dev.config.frag_threshold = w.dev.config.frag_threshold
    ∧ (apply_event w e).dev.config.qos_enabled = w.dev.config.qos_enabled := by
  obtain ⟨hs, hm, hst, hq, hl⟩ := h
  have hc : w.dev.state ≠ wifi_state.CONNECTED := by
    rcases hst with hst | hst <;> simp [hst]
  cases e with
  | start_scan =>
    rcases hst with hst | hst <;>
      simp [apply_event, wifi_core_scan_start, cfg80211_notify_scan_started, set_state, emit,
        hst]
  | scan_result bss alloc_ok jiffies =>
    cases alloc_ok <;> simp [apply_event, wifi_core_scan_result]
  | scan_done =>
    simp [apply_event, wifi_core_scan_done, cfg80211_notify_scan_done, set_state, emit]
  | connect target rnd =>
    rcases target with _ | b <;>
      simp [apply_event, wifi_core_connect, wpa_start_auth, set_state, emit, hs, EINVAL]
  | disconnect =>
    simp [apply_event, wifi_core_disconnect, mac_disassociate, wpa_reset,
      cfg80211_notify_disconnected, set_state, emit, hs, hm]
  | rssi_sample r =>
    simp [apply_event, wifi_core_check_roaming, hc]
  | suspend =>
    simp [apply_event, wifi_core_suspend, mac_set_power_save, emit, hm]
  | resume =>
    simp [apply_event, wifi_core_resume, mac_set_power_save, emit, hm]

/-- No operation writes `frag_threshold` or `qos_enabled`: the two setters
write `tx_power_dbm` and `rts_threshold` only. -/
theorem apply_op_config (w : World) (op : CoreOp) (h : init_inv w) :
    (apply_op w op).dev.config.frag_threshold = w.dev.config.frag_threshold
    ∧ (apply_op w op).dev.config.qos_enabled = w.dev.config.qos_enabled := by
  cases op with
  | event e => exact apply_event_config w e h
  | tx skb alloc_ok =>
    obtain ⟨hs, hm, hst, hq, hl⟩ := h
    have hc : w.dev.state ≠ wifi_state.CONNECTED := by
      rcases hst with hst | hst <;> simp [hst]
    simp [apply_op, wifi_core_tx, hc, dev_kfree_skb, emit]
  | tx_wq_run =>
    have hq := h.2.2.2.1
    simp [apply_op, run_tx_wq, hq]
  | rx skb proto =>
    obtain ⟨hs, hm, hst, hq, hl⟩ := h
    simp [apply_op, wifi_core_rx, wpa_decrypt_skb, wpa_decrypt_ret, dev_kfree_skb, emit, hs,
      ENOKEY]
  | set_tx_power dbm =>
    obtain ⟨hs, hm, hst, hq, hl⟩ := h
    by_cases hd : dbm > 30 <;>
      simp [apply_op, wifi_core_set_tx_power, mac_set_tx_power, emit, hd, hm]
  | set_rts_threshold thresh => exact ⟨rfl, rfl⟩
  | update_tx_stats bytes success => exact ⟨rfl, rfl⟩
  | update_rx_stats bytes success => exact ⟨rfl, rfl⟩
  | get_stats => exact ⟨rfl, rfl⟩
  | fw_load => exact ⟨rfl, rfl⟩

/-- The two config fields are those of the starting world after any sequence
of operations from a world satisfying `init_inv`. -/
theorem run_ops_config (ops : List CoreOp) (w : World) (h : init_inv w) :
    (run_ops w ops).dev.config.frag_threshold = w.dev.config.frag_threshold
    ∧ (run_ops w ops).dev.config.qos_enabled = w.dev.config.qos_enabled := by
  induction ops generalizing w with
  | nil => exact ⟨rfl, rfl⟩
  | cons op rest ih =>
    have hstep : run_ops w (op :: rest) = run_ops (apply_op w op) rest := rfl
    have h1 := ih (apply_op w op) (apply_op_inv w op h)
    have h2 := apply_op_config w op h
    rw [hstep]
    exact ⟨h1.1.trans h2.1, h1.2.trans h2.2⟩

/-- C21. `wifi_core_init` zero-fills the config, and after any sequence of
operations on the initialised device `config.frag_threshold` is still 0 and
`config.qos_enabled` still false. On such a device the TX worker drops every
frame of non-zero length: the only call it makes is the release of the frame
(no QoS tag, no encryption, no submit), and device and counters are unchanged. -/
theorem C21_every_frame_dropped (ops : List CoreOp) (tw : tx_work)
    (h : tw.skb.len ≠ 0) :
    init_world.dev.config.frag_threshold = 0
    ∧ init_world.dev.config.qos_enabled = false
    ∧ (run_ops init_world ops).dev.config.frag_threshold = 0
    ∧ (run_ops init_world ops).dev.config.qos_enabled = false
    ∧ tw.skb.len > (run_ops init_world ops).dev.config.frag_threshold
    ∧ (wifi_tx_worker (run_ops init_world ops) tw).trace
        = (run_ops init_world ops).trace ++ [Effect.dev_kfree_skb tw.skb]
    ∧ (∀ e ∈ (wifi_tx_worker (run_ops init_world ops) tw).trace,
        e ∈ (run_ops init_world ops).trace ∨ e = Effect.dev_kfree_skb tw.skb)
    ∧ submitted (wifi_tx_worker (run_ops init_world ops) tw).trace
        = submitted (run_ops init_world ops).trace
    ∧ (wifi_tx_worker (run_ops init_world ops) tw).dev = (run_ops init_world ops).dev
    ∧ (wifi_tx_worker (run_ops init_world ops) tw).g_stats
        = (run_ops init_world ops).g_stats := by
  obtain ⟨hf, hq⟩ := run_ops_config ops init_world init_world_inv
  have hf0 : (run_ops init_world ops).dev.config.frag_threshold = 0 := hf
  have hq0 : (run_ops init_world ops).dev.config.qos_enabled = false := hq
  have hgt : tw.skb.len > (run_ops init_world ops).dev.config.frag_threshold := by
    rw [hf0]; omega
  have hw : wifi_tx_worker (run_ops init_world ops) tw
      = dev_kfree_skb (run_ops init_world ops) tw.skb := by
    simp [wifi_tx_worker, hgt]
  refine ⟨rfl, rfl, hf0, hq0, hgt, ?_, ?_, ?_, ?_, wifi_tx_worker_g_stats _ tw⟩
  · rw [hw]; rfl
  · rw [hw]
    intro e he
    simpa [dev_kfree_skb, emit] using he
  · rw [hw]; simp [dev_kfree_skb, emit, submitted, List.filterMap_append]
  · rw [hw]; rfl

/-- Witness of C21: after a scan, a connect attempt, both setters and a TX
request, a 1-byte frame given to the worker is dropped. -/
theorem C21_every_frame_dropped_witness :
    (run_ops init_world
        [CoreOp.event CoreEvent.start_scan, CoreOp.event CoreEvent.scan_done,
         CoreOp.event (CoreEvent.connect (some open_ap) no_rnd),
         CoreOp.set_tx_power 20, CoreOp.set_rts_threshold 2347,
         CoreOp.tx (frame 1) true]).dev.config.frag_threshold = 0
    ∧ (wifi_tx_worker
        (run_ops init_world
          [CoreOp.event CoreEvent.start_scan, CoreOp.event CoreEvent.scan_done,
           CoreOp.event (CoreEvent.connect (some open_ap) no_rnd),
           CoreOp.set_tx_power 20, CoreOp.set_rts_threshold 2347,
           CoreOp.tx (frame 1) true]) { skb := frame 1 }).trace
      = (run_ops init_world
          [CoreOp.event CoreEvent.start_scan, CoreOp.event CoreEvent.scan_done,
           CoreOp.event (CoreEvent.connect (some open_ap) no_rnd),
           CoreOp.set_tx_power 20, CoreOp.set_rts_threshold 2347,
           CoreOp.tx (frame 1) true]).trace ++ [Effect.dev_kfree_skb (frame 1)] :=
  have h := C21_every_frame_dropped
    [CoreOp.event CoreEvent.start_scan, CoreOp.event CoreEvent.scan_done,
     CoreOp.event (CoreEvent.connect (some open_ap) no_rnd),
     CoreOp.set_tx_power 20, CoreOp.set_rts_threshold 2347,
     CoreOp.tx (frame 1) true] { skb := frame 1 } (by decide)
  ⟨h.2.2.1, h.2.2.2.2.2.1⟩

end WifiCore
